import Mathlib

/-
  Verification development for the Gainsight Customer Communities MCP
  bridge (Python sources: src/client.py and src/server.py).

  The Python code is shallowly embedded: network I/O is made explicit by
  passing the responses the network would deliver as arguments, and the
  mutable token cache of the client object becomes explicit state passing.
  Python truthiness tests on optional strings (`if self._access_token`,
  `region or ...`, `if content_type:`, `if created_after or ...`) are
  embedded faithfully via boolean truthiness functions.
-/

namespace GainsightMCP

/-- JSON values as decoded by the HTTP layer (`resp.json()`); numbers are
restricted to integers, which is all the repository ever produces. -/
inductive Json where
  | null
  | bool (b : Bool)
  | num (n : Int)
  | str (s : String)
  | arr (elts : List Json)
  | obj (fields : List (String × Json))
  deriving Repr, Inhabited

/-- A scalar query-parameter value (Python lets str, int and bool through). -/
inductive PValue where
  | s (v : String)
  | i (v : Int)
  | b (v : Bool)
  deriving Repr, DecidableEq, Inhabited

/-- A query-parameter mapping, in insertion order as a Python dict. -/
abbrev Params := List (String × PValue)

/-- Python truthiness of an optional string: `None` and the empty string
are falsy, every other string is truthy. -/
def optStrTruthy : Option String → Bool
  | none => false
  | some s => !(s == "")

/-- A single-quote character, kept out of string literals. -/
def squote : String := (Char.ofNat 39).toString

namespace client

/-- client.py lines 11 to 14: the region allow-list, in insertion order. -/
def REGION_BASE_URLS : List (String × String) :=
  [("eu-west-1", "https://api2-eu-west-1.insided.com"),
   ("us-west-2", "https://api2-us-west-2.insided.com")]

/-- client.py line 16. -/
def TOKEN_PATH : String := "/oauth2/token"

/-- client.py lines 19 to 25: content type names to API path segments,
in insertion order. -/
def CONTENT_TYPE_PATHS : List (String × String) :=
  [("article", "articles"),
   ("conversation", "conversations"),
   ("question", "questions"),
   ("idea", "ideas"),
   ("productUpdate", "productUpdates")]

/-- Python `dict.get` on an association list. -/
def dictGet (d : List (String × String)) (k : String) : Option String :=
  (d.find? (fun kv => kv.1 == k)).map Prod.snd

/-- The error message of client.py lines 42 to 45. -/
def unknownRegionMsg (r : String) : String :=
  "Unknown region " ++ squote ++ r ++ squote ++ ". Supported: " ++
    String.intercalate ", " (REGION_BASE_URLS.map Prod.fst)

/-- The error message of client.py lines 129 to 132 (and its copies at
lines 144 to 147, 200 to 203 and 212 to 215). -/
def unknownContentTypeMsg (ct : String) : String :=
  "Unknown content type " ++ squote ++ ct ++ squote ++ ". Supported: " ++
    String.intercalate ", " (CONTENT_TYPE_PATHS.map Prod.fst)

/-- client.py line 39: `region or os.environ.get("GS_CC_REGION", "eu-west-1")`.
A falsy (absent or empty) argument falls back to the environment variable,
which itself falls back to the fixed default. -/
def resolveRegion (regionArg envRegion : Option String) : String :=
  if optStrTruthy regionArg then regionArg.getD "" else envRegion.getD "eu-west-1"

/-- The part of a constructed client fixed for its lifetime. -/
structure ClientConfig where
  region : String
  base_url : String
  deriving Repr, DecidableEq

/-- client.py lines 31 to 50, restricted to region resolution (credential
sourcing raises KeyError on a missing environment variable and is not under
test here): resolve the region, fail on an unknown key, otherwise bind the
base URL. -/
def clientInit (regionArg envRegion : Option String) : Except String ClientConfig :=
  let region := resolveRegion regionArg envRegion
  match dictGet REGION_BASE_URLS region with
  | some url => .ok ⟨region, url⟩
  | none => .error (unknownRegionMsg region)

/-- The mutable token cache of a client instance: client.py lines 48 to 49
initialise it to `(None, 0)`. -/
structure ClientState where
  access_token : Option String
  token_expires_at : Int
  deriving Repr, DecidableEq

/-- client.py lines 48 to 49. -/
def initialState : ClientState := ⟨none, 0⟩

/-- Python truthiness of `self._access_token` in client.py line 54. -/
def token_exists (st : ClientState) : Bool := optStrTruthy st.access_token

/-- The decoded body of a successful token response:
`data["access_token"]` and the optional `data.get("expires_in", 3600)`. -/
structure TokenResponseBody where
  access_token : String
  expires_in : Option Int
  deriving Repr, DecidableEq

/-- The outcome the network delivers for one HTTP exchange: a 2xx response
with decoded body, or a non-2xx response on which `raise_for_status` raises
an HTTPStatusError carrying the status code and body. -/
inductive HttpResult (α : Type) where
  | success (body : α)
  | httpError (status : Nat) (body : String)
  deriving Repr, DecidableEq

/-- Result of one `_ensure_token` call: the state after the call, whether a
token request was issued, and the HTTP failure that was raised, if any. -/
structure EnsureResult where
  state : ClientState
  requested : Bool
  failure : Option (Nat × String)
  deriving Repr, DecidableEq

/-- client.py lines 52 to 70 (`_ensure_token`): reuse the cached token when
it is truthy and not yet expired; otherwise POST to the token endpoint.  On
a non-2xx response `raise_for_status` raises before either cache field is
assigned; on success both fields are set, with the expiry sixty seconds
early and `expires_in` defaulting to 3600. -/
def ensure_token (st : ClientState) (now : Int)
    (fetch : HttpResult TokenResponseBody) : EnsureResult :=
  if token_exists st ∧ now < st.token_expires_at then
    ⟨st, false, none⟩
  else
    match fetch with
    | .success body =>
        ⟨⟨some body.access_token, now + body.expires_in.getD 3600 - 60⟩, true, none⟩
    | .httpError status body => ⟨st, true, some (status, body)⟩

/-- The HTTP request `_request` hands to the underlying httpx client:
method, path, optional query parameters and headers. -/
structure IssuedRequest where
  method : String
  path : String
  params : Option Params
  headers : List (String × String)
  deriving Repr

/-- The failure a client operation can raise: a ValueError for a
configuration problem, or an HTTPStatusError with status code and body. -/
inductive RequestError where
  | config (msg : String)
  | http (status : Nat) (body : String)
  deriving Repr, DecidableEq

/-- Result of one `_request` call: the state after the call, the resource
request that was actually issued (if any), and the returned body or the
raised failure. -/
structure RequestOutcome where
  state : ClientState
  issued : Option IssuedRequest
  result : Except RequestError Json
  deriving Repr

/-- client.py lines 72 to 90 (`_request`): first `_ensure_token` (whose
failure propagates before any resource request is issued), then the HTTP
request with the given method, path and params, attaching the Bearer and
Accept headers; `raise_for_status` raises on non-2xx, otherwise the decoded
body is returned. -/
def _request (st : ClientState) (now : Int)
    (tokenFetch : HttpResult TokenResponseBody)
    (method path : String) (params : Option Params)
    (resource : HttpResult Json) : RequestOutcome :=
  let e := ensure_token st now tokenFetch
  match e.failure with
  | some (status, body) => ⟨e.state, none, .error (.http status body)⟩
  | none =>
      let req : IssuedRequest :=
        ⟨method, path, params,
          [("Authorization", "Bearer " ++ (e.state.access_token.getD "")),
           ("Accept", "*/*")]⟩
      match resource with
      | .success body => ⟨e.state, some req, .ok body⟩
      | .httpError status body => ⟨e.state, some req, .error (.http status body)⟩

/-- The call a public client method prepares before reaching `_request`:
either a ValueError message raised up front, or method, path and params. -/
structure CallSpec where
  method : String
  path : String
  params : Option Params
  deriving Repr, DecidableEq

/-- Run a prepared call: a configuration error is raised before `_request`
is ever entered (so no request is issued at all); otherwise the call is
funnelled through `_request`. -/
def runOp (spec : Except String CallSpec) (st : ClientState) (now : Int)
    (tokenFetch : HttpResult TokenResponseBody)
    (resource : HttpResult Json) : RequestOutcome :=
  match spec with
  | .error msg => ⟨st, none, .error (.config msg)⟩
  | .ok c => _request st now tokenFetch c.method c.path c.params resource

/-- client.py lines 94 to 96. -/
def search (params : Params) : Except String CallSpec :=
  .ok ⟨"GET", "/v2/topics/search", some params⟩

/-- client.py lines 98 to 100. -/
def list_topics (params : Params) : Except String CallSpec :=
  .ok ⟨"GET", "/v2/topics", some params⟩

/-- client.py lines 102 to 104. -/
def list_questions (params : Params) : Except String CallSpec :=
  .ok ⟨"GET", "/v2/questions", some params⟩

/-- client.py lines 106 to 108. -/
def list_conversations (params : Params) : Except String CallSpec :=
  .ok ⟨"GET", "/v2/conversations", some params⟩

/-- client.py lines 110 to 112. -/
def list_articles (params : Params) : Except String CallSpec :=
  .ok ⟨"GET", "/v2/articles", some params⟩

/-- client.py lines 114 to 116. -/
def list_ideas (params : Params) : Except String CallSpec :=
  .ok ⟨"GET", "/v2/ideas", some params⟩

/-- client.py lines 118 to 120. -/
def list_product_updates (params : Params) : Except String CallSpec :=
  .ok ⟨"GET", "/v2/productUpdates", some params⟩

/-- client.py lines 122 to 133 (`get_topic_detail`): the content type is
checked against CONTENT_TYPE_PATHS before the path is constructed; an
unknown type raises a ValueError (the dict holds no empty segment, so the
`if not path_segment` truthiness test is a None test). -/
def get_topic_detail (content_type : String) (topic_id : Int) :
    Except String CallSpec :=
  match dictGet CONTENT_TYPE_PATHS content_type with
  | none => .error (unknownContentTypeMsg content_type)
  | some seg => .ok ⟨"GET", "/v2/" ++ seg ++ "/" ++ toString topic_id, none⟩

/-- client.py lines 135 to 150 (`get_topic_replies`). -/
def get_topic_replies (content_type : String) (topic_id : Int)
    (params : Option Params) : Except String CallSpec :=
  match dictGet CONTENT_TYPE_PATHS content_type with
  | none => .error (unknownContentTypeMsg content_type)
  | some seg =>
      .ok ⟨"GET", "/v2/" ++ seg ++ "/" ++ toString topic_id ++ "/replies", params⟩

/-- client.py lines 152 to 154. -/
def get_topic_by_id (topic_id : Int) : Except String CallSpec :=
  .ok ⟨"GET", "/v2/topics", some [("id", .i topic_id)]⟩

/-- client.py lines 156 to 158. -/
def list_categories (params : Option Params) : Except String CallSpec :=
  .ok ⟨"GET", "/v2/categories", params⟩

/-- client.py lines 160 to 162. -/
def list_tags (params : Option Params) : Except String CallSpec :=
  .ok ⟨"GET", "/v2/tags", params⟩

/-- client.py lines 164 to 166. -/
def list_moderator_tags (params : Option Params) : Except String CallSpec :=
  .ok ⟨"GET", "/v2/moderatorTags", params⟩

/-- client.py lines 168 to 170. -/
def get_category (category_id : Int) : Except String CallSpec :=
  .ok ⟨"GET", "/v2/categories/" ++ toString category_id, none⟩

/-- client.py lines 172 to 174. -/
def get_category_tree : Except String CallSpec :=
  .ok ⟨"GET", "/v2/category/getTree", none⟩

/-- client.py lines 176 to 178. -/
def get_category_topic_counts : Except String CallSpec :=
  .ok ⟨"GET", "/v2/categories/getVisibleTopicsCount", none⟩

/-- client.py lines 180 to 186. -/
def list_topics_by_category (category_id : Int) (params : Option Params) :
    Except String CallSpec :=
  .ok ⟨"GET", "/v2/categories/" ++ toString category_id ++ "/topics", params⟩

/-- client.py lines 188 to 190. -/
def list_idea_statuses : Except String CallSpec :=
  .ok ⟨"GET", "/v2/ideas/ideaStatuses", none⟩

/-- client.py lines 192 to 194. -/
def list_product_areas : Except String CallSpec :=
  .ok ⟨"GET", "/v2/productAreas", none⟩

/-- client.py lines 196 to 204 (`get_poll_results`). -/
def get_poll_results (content_type : String) (topic_id : Int) :
    Except String CallSpec :=
  match dictGet CONTENT_TYPE_PATHS content_type with
  | none => .error (unknownContentTypeMsg content_type)
  | some seg => .ok ⟨"GET", "/v2/" ++ seg ++ "/" ++ toString topic_id ++ "/poll", none⟩

/-- client.py lines 206 to 218 (`get_reply`). -/
def get_reply (content_type : String) (topic_id reply_id : Int) :
    Except String CallSpec :=
  match dictGet CONTENT_TYPE_PATHS content_type with
  | none => .error (unknownContentTypeMsg content_type)
  | some seg =>
      .ok ⟨"GET",
        "/v2/" ++ seg ++ "/" ++ toString topic_id ++ "/replies/" ++ toString reply_id,
        none⟩

/-- Modelled from the spec: the client-level "search tags" operation is
absent from src/src/client.py (src/src/server.py line 97 and the tests call
`client.search_tags`).  The spec operation menu gives it as a GET bound to
a fixed tag-search path with the given query parameters; the concrete path
value is not stated by the spec, so an arbitrary fixed constant stands for
it here. -/
def TAG_SEARCH_PATH : String := "/v2/search/tags"

/-- Modelled from the spec: "search tags | GET | a fixed tag-search path |
name/usage lookup" — the generic primitive bound to the fixed method GET
and the fixed tag-search path, polymorphic over a query-parameter map. -/
def search_tags (params : Params) : Except String CallSpec :=
  .ok ⟨"GET", TAG_SEARCH_PATH, some params⟩

end client

namespace server

/-- server.py lines 31 to 33 (`_clean`): remove None values so they are not
sent as query params.  Polymorphic like the Python original, which is
applied both to parameter dicts and to date-range dicts. -/
def _clean {α : Type} (params : List (String × Option α)) : List (String × α) :=
  params.filterMap (fun kv => kv.2.map (fun v => (kv.1, v)))

/-- One lowercase hexadecimal digit. -/
def hexDigit (n : Nat) : Char :=
  if n < 10 then Char.ofNat (48 + n) else Char.ofNat (87 + n)

/-- Four lowercase hexadecimal digits, as in a JSON \u escape. -/
def hex4 (n : Nat) : String :=
  String.mk [hexDigit (n / 4096 % 16), hexDigit (n / 256 % 16),
             hexDigit (n / 16 % 16), hexDigit (n % 16)]

/-- The escape `json.dumps` (ensure_ascii default) applies to one character
of a string: quote, backslash and the short control escapes, \u escapes for
the remaining characters outside the printable ASCII range, with surrogate
pairs above the basic plane. -/
def jsonEscapeChar (c : Char) : String :=
  if c = Char.ofNat 34 then "\\\""
  else if c = Char.ofNat 92 then "\\\\"
  else if c = Char.ofNat 10 then "\\n"
  else if c = Char.ofNat 13 then "\\r"
  else if c = Char.ofNat 9 then "\\t"
  else if c = Char.ofNat 8 then "\\b"
  else if c = Char.ofNat 12 then "\\f"
  else if c.toNat < 32 ∨ c.toNat > 126 then
    if c.toNat ≤ 65535 then "\\u" ++ hex4 c.toNat
    else
      "\\u" ++ hex4 (55296 + (c.toNat - 65536) / 1024) ++
      "\\u" ++ hex4 (56320 + (c.toNat - 65536) % 1024)
  else c.toString

/-- `json.dumps` of a string. -/
def json_dumps_str (s : String) : String :=
  "\"" ++ String.join (s.toList.map jsonEscapeChar) ++ "\""

/-- `json.dumps` of a dict of strings, with the default item and key
separators of the Python encoder. -/
def json_dumps_obj (fields : List (String × String)) : String :=
  "\x7b" ++
    String.intercalate ", "
      (fields.map (fun kv => json_dumps_str kv.1 ++ ": " ++ json_dumps_str kv.2)) ++
  "\x7d"

/-- server.py lines 156 to 162 (and 329 to 335): collapse an after/before
pair into one range dict when at least one bound is truthy, dropping the
absent bounds with `_clean`; otherwise leave the range as None. -/
def date_range (after before : Option String) :
    Option (List (String × String)) :=
  if optStrTruthy after || optStrTruthy before then
    some (_clean [("from", after), ("to", before)])
  else none

/-- server.py line 171 (and its copies): `json.dumps(x) if x else None` —
an absent or empty range dict yields None, a non-empty one its JSON text. -/
def range_param (r : Option (List (String × String))) : Option PValue :=
  match r with
  | some d => if d.isEmpty then none else some (.s (json_dumps_obj d))
  | none => none

/-- server.py lines 61 to 71: the parameter dict of the search_community
tool, after `_clean`. -/
def search_community_params (query : String)
    (category_ids content_types tags moderator_tags : Option String)
    (has_answer : Option Bool) (page : Option Int) : Params :=
  _clean
    [("q", some (.s query)),
     ("categoryIds", category_ids.map .s),
     ("contentTypes", content_types.map .s),
     ("tags", tags.map .s),
     ("moderatorTags", moderator_tags.map .s),
     ("hasAnswer", has_answer.map .b),
     ("page", page.map .i)]

/-- server.py lines 91 to 96: the parameter dict of the search_tags tool,
after `_clean`. -/
def search_tags_params (query : Option String) (page : Option Int) : Params :=
  _clean [("q", query.map .s), ("page", page.map .i)]

/-- server.py line 140 (and 224, 258): page/pageSize only, after `_clean`. -/
def page_params (page page_size : Option Int) : Params :=
  _clean [("page", page.map .i), ("pageSize", page_size.map .i)]

/-- server.py lines 164 to 176: the unified /v2/topics parameter dict of
the list_topics tool, with both date ranges serialized. -/
def list_topics_unified_params
    (category_ids tags moderator_tags content_types sort
     created_after created_before active_after active_before : Option String)
    (page page_size : Option Int) : Params :=
  let created_at := date_range created_after created_before
  let last_activity := date_range active_after active_before
  _clean
    [("categoryIds", category_ids.map .s),
     ("tags", tags.map .s),
     ("moderatorTags", moderator_tags.map .s),
     ("contentTypes", content_types.map .s),
     ("sort", sort.map .s),
     ("createdAt", range_param created_at),
     ("lastActivity", range_param last_activity),
     ("page", page.map .i),
     ("pageSize", page_size.map .i)]

/-- server.py lines 337 to 347: the parameter dict of the
list_topics_by_category tool. -/
def list_topics_by_category_params
    (tags moderator_tags sort
     created_after created_before active_after active_before : Option String)
    (page page_size : Option Int) : Params :=
  let created_at := date_range created_after created_before
  let last_activity := date_range active_after active_before
  _clean
    [("tags", tags.map .s),
     ("moderatorTags", moderator_tags.map .s),
     ("sort", sort.map .s),
     ("createdAt", range_param created_at),
     ("lastActivity", range_param last_activity),
     ("page", page.map .i),
     ("pageSize", page_size.map .i)]

/-- server.py lines 101 to 178 (`list_topics` tool), reduced to the client
call it issues: a truthy content_type routes to the matching type-specific
client method with page/pageSize only (an unknown truthy value falls
through the elif chain to `client.list_topics`); otherwise the unified
/v2/topics call carries the full filter surface.  The result is the path
of the underlying client GET and its cleaned parameter dict. -/
def list_topics_tool
    (content_type category_ids tags moderator_tags content_types sort
     created_after created_before active_after active_before : Option String)
    (page page_size : Option Int) : String × Params :=
  if optStrTruthy content_type then
    let params := page_params page page_size
    let ct := content_type.getD ""
    if ct = "question" then ("/v2/questions", params)
    else if ct = "conversation" then ("/v2/conversations", params)
    else if ct = "article" then ("/v2/articles", params)
    else if ct = "idea" then ("/v2/ideas", params)
    else if ct = "productUpdate" then ("/v2/productUpdates", params)
    else ("/v2/topics", params)
  else
    ("/v2/topics",
     list_topics_unified_params category_ids tags moderator_tags content_types
       sort created_after created_before active_after active_before page page_size)

/-- server.py lines 203 to 207 in `get_topic`: the replies lookup result is
attached to the topic dict under "replies"; an HTTPStatusError from the
replies call (and only that exception) is converted into the fixed
empty-replies shape instead of propagating.  A ValueError from the
content-type check is not caught. -/
def emptyRepliesShape : Json :=
  .obj [("result", .arr []), ("_metadata", .obj [("totalCount", .num 0)])]

/-- Python dict read `j[key]` as used on decoded JSON objects. -/
def jsonGet (j : Json) (key : String) : Option Json :=
  match j with
  | .obj fields => (fields.find? (fun kv => kv.1 == key)).map Prod.snd
  | _ => none

/-- Python dict assignment `j[key] = v` on a decoded JSON object: replace
the value in place when the key is present, append otherwise. -/
def objSet (j : Json) (key : String) (v : Json) : Json :=
  match j with
  | .obj fields =>
      if fields.any (fun kv => kv.1 == key) then
        .obj (fields.map (fun kv => if kv.1 == key then (kv.1, v) else kv))
      else .obj (fields ++ [(key, v)])
  | other => other

/-- server.py lines 202 to 209: given the fetched topic detail and the
outcome of the replies call, produce the returned topic: replies errors of
HTTP kind become the empty-replies shape, a configuration error propagates,
and the replies value is attached under "replies". -/
def get_topic_attach (topic : Json) (replies : Except client.RequestError Json) :
    Except client.RequestError Json :=
  match replies with
  | .ok r => .ok (objSet topic "replies" r)
  | .error (.http _ _) => .ok (objSet topic "replies" emptyRepliesShape)
  | .error e => .error e

/-- server.py lines 76 to 98 (`search_tags` tool): clean the q/page dict
and hand it to the client-level search_tags operation. -/
def search_tags_tool (query : Option String) (page : Option Int) :
    Except String client.CallSpec :=
  client.search_tags (search_tags_params query page)

/-- The full run of the server list_topics tool: the client call it
selects, funnelled through the generic request primitive (every client
list method is `_request` with method GET and its fixed path). -/
def list_topics_tool_run
    (content_type category_ids tags moderator_tags content_types sort
     created_after created_before active_after active_before : Option String)
    (page page_size : Option Int)
    (st : client.ClientState) (now : Int)
    (tokenFetch : client.HttpResult client.TokenResponseBody)
    (resource : client.HttpResult Json) : client.RequestOutcome :=
  let c := list_topics_tool content_type category_ids tags moderator_tags
    content_types sort created_after created_before active_after active_before
    page page_size
  client._request st now tokenFetch "GET" c.1 (some c.2) resource

end server

/-- Lookup of one key in a parameter mapping (what the query string
transmits for that key). -/
def findParam (ps : Params) (k : String) : Option PValue :=
  (ps.find? (fun kv => kv.1 == k)).map Prod.snd

open client server

/-- `jsonGet` on an object literal is a keyed `find?`. -/
theorem jsonGet_obj (l : List (String × Json)) (k : String) :
    jsonGet (Json.obj l) k = (l.find? (fun kv => kv.1 == k)).map Prod.snd := rfl

/-- Reading back the key just assigned on a JSON object returns the
assigned value, whether the key was present before or not. -/
theorem jsonGet_objSet (fs : List (String × Json)) (k : String) (v : Json) :
    jsonGet (objSet (Json.obj fs) k v) k = some v := by
  have hred : objSet (Json.obj fs) k v =
      if fs.any (fun kv => kv.1 == k) then
        Json.obj (fs.map (fun kv => if kv.1 == k then (kv.1, v) else kv))
      else Json.obj (fs ++ [(k, v)]) := rfl
  rw [hred]
  by_cases h : fs.any (fun kv => kv.1 == k)
  · rw [if_pos h, jsonGet_obj]
    have hcomp : ((fun kv : String × Json => kv.1 == k) ∘
        (fun kv : String × Json => if kv.1 == k then (kv.1, v) else kv)) =
        fun kv : String × Json => kv.1 == k := by
      funext kv
      by_cases hk : (kv.1 == k) = true
      · simp only [Function.comp_apply, if_pos hk]
      · simp only [Function.comp_apply, if_neg hk]
    rw [List.find?_map, hcomp]
    obtain ⟨w, hw⟩ := Option.isSome_iff_exists.mp
      (List.find?_isSome.mpr (List.any_eq_true.mp h))
    rw [hw]
    have hpw := List.find?_some hw
    simp only [] at hpw
    have hw1 : w.1 = k := by simpa using hpw
    simp [hpw, hw1]
  · rw [if_neg h, jsonGet_obj]
    have hnone : fs.find? (fun kv => kv.1 == k) = none :=
      List.find?_eq_none.mpr (fun x hx =>
        (List.any_eq_false.mp (Bool.eq_false_iff.mpr h) x hx))
    rw [List.find?_append, hnone]
    simp [List.find?]

/-- After a successful token fetch (or a reuse), the cache holds a token. -/
theorem ensure_token_success_isSome (st : ClientState) (now : Int)
    (tb : TokenResponseBody) :
    ∃ tok, (ensure_token st now (.success tb)).state.access_token = some tok := by
  unfold ensure_token
  by_cases h : token_exists st ∧ now < st.token_expires_at
  · rw [if_pos h]
    rcases h with ⟨h1, _⟩
    unfold token_exists optStrTruthy at h1
    cases hst : st.access_token with
    | none => rw [hst] at h1; simp at h1
    | some s => exact ⟨s, rfl⟩
  · rw [if_neg h]
    exact ⟨tb.access_token, rfl⟩

/-- A successful token fetch never raises. -/
theorem ensure_token_success_failure (st : ClientState) (now : Int)
    (tb : TokenResponseBody) :
    (ensure_token st now (.success tb)).failure = none := by
  unfold ensure_token
  by_cases h : token_exists st ∧ now < st.token_expires_at
  · rw [if_pos h]
  · rw [if_neg h]

/-- What `_request` does when the token stage has not raised. -/
theorem request_of_failure_none (st : ClientState) (now : Int)
    (tf : HttpResult TokenResponseBody) (m p : String) (ps : Option Params)
    (res : HttpResult Json)
    (h : (ensure_token st now tf).failure = none) :
    _request st now tf m p ps res =
      ⟨(ensure_token st now tf).state,
       some ⟨m, p, ps,
         [("Authorization",
           "Bearer " ++ ((ensure_token st now tf).state.access_token.getD "")),
          ("Accept", "*/*")]⟩,
       match res with
       | .success body => .ok body
       | .httpError status body => .error (.http status body)⟩ := by
  cases res <;> simp [_request, h]

/-- What `_request` does when the token stage raised. -/
theorem request_of_failure_some (st : ClientState) (now : Int)
    (tf : HttpResult TokenResponseBody) (m p : String) (ps : Option Params)
    (res : HttpResult Json) (status : Nat) (body : String)
    (h : (ensure_token st now tf).failure = some (status, body)) :
    _request st now tf m p ps res =
      ⟨(ensure_token st now tf).state, none, .error (.http status body)⟩ := by
  simp [_request, h]

/-- Claim C1: token acquisition protocol — a cached token is reused exactly
when a token exists (the cached optional string is truthy) and the current
time is strictly below the cached expiry; a cache miss fetches a new token
and sets the expiry to now plus expires_in minus sixty seconds, with
expires_in defaulting to 3600 when absent; and in the concrete scenario
with expires_in 3600, two ensure-token calls within 3540 seconds issue one
token request and a third call at or after the effective expiry issues
exactly one more. -/
theorem claim_C1_token_protocol
    (resp resp2 resp3 : TokenResponseBody) (t0 t1 t2 : Int)
    (hexp : resp.expires_in = some 3600)
    (htok : resp.access_token ≠ "")
    (h01 : t1 < t0 + 3540) (h2 : t0 + 3540 ≤ t2) :
    (∀ (st : ClientState) (now : Int) (fetch : HttpResult TokenResponseBody),
        (ensure_token st now fetch).requested = false ↔
          (token_exists st = true ∧ now < st.token_expires_at)) ∧
    (∀ (st : ClientState) (now : Int) (body : TokenResponseBody),
        (ensure_token st now (.success body)).requested = true →
          (ensure_token st now (.success body)).state =
            ⟨some body.access_token, now + body.expires_in.getD 3600 - 60⟩) ∧
    (∀ body : TokenResponseBody, body.expires_in = none →
        body.expires_in.getD 3600 = 3600) ∧
    ((ensure_token initialState t0 (.success resp)).requested = true ∧
     (ensure_token (ensure_token initialState t0 (.success resp)).state t1
        (.success resp2)).requested = false ∧
     (ensure_token (ensure_token (ensure_token initialState t0
        (.success resp)).state t1 (.success resp2)).state t2
        (.success resp3)).requested = true) := by
  refine ⟨?_, ?_, ?_, ?_⟩
  · intro st now fetch
    unfold ensure_token
    by_cases h : token_exists st ∧ now < st.token_expires_at
    · rw [if_pos h]
      simpa using h
    · rw [if_neg h]
      cases fetch <;> simp [h]
  · intro st now body
    unfold ensure_token
    by_cases h : token_exists st ∧ now < st.token_expires_at
    · rw [if_pos h]
      intro hc
      simp at hc
    · rw [if_neg h]
      intro _
      rfl
  · intro body hb
    rw [hb]
    rfl
  · have e1 : ensure_token initialState t0 (.success resp) =
        ⟨⟨some resp.access_token, t0 + 3600 - 60⟩, true, none⟩ := by
      unfold ensure_token
      rw [if_neg (by rintro ⟨h1, -⟩; simp [token_exists, initialState, optStrTruthy] at h1)]
      simp [hexp]
    have hcond2 : token_exists ⟨some resp.access_token, t0 + 3600 - 60⟩ = true ∧
        t1 < (⟨some resp.access_token, t0 + 3600 - 60⟩ : ClientState).token_expires_at := by
      constructor
      · simp [token_exists, optStrTruthy, htok]
      · show t1 < t0 + 3600 - 60
        omega
    have e2 : ensure_token ⟨some resp.access_token, t0 + 3600 - 60⟩ t1 (.success resp2) =
        ⟨⟨some resp.access_token, t0 + 3600 - 60⟩, false, none⟩ := by
      unfold ensure_token
      rw [if_pos hcond2]
    refine ⟨by rw [e1], by rw [e1, e2], ?_⟩
    rw [e1, e2]
    unfold ensure_token
    rw [if_neg (by rintro ⟨-, hlt⟩; revert hlt; show ¬ (t2 < t0 + 3600 - 60); omega)]

/-- Witness for claim C1 at the concrete scenario: token response
tok/3600, first call at time 0, second at 100, third at 4000. -/
theorem claim_C1_token_protocol_witness :
    ((⟨"tok", some 3600⟩ : TokenResponseBody).expires_in = some 3600 ∧
     (⟨"tok", some 3600⟩ : TokenResponseBody).access_token ≠ "" ∧
     ((100 : Int) < 0 + 3540) ∧ ((0 : Int) + 3540 ≤ 4000)) ∧
    ((ensure_token initialState 0 (.success ⟨"tok", some 3600⟩)).requested = true ∧
     (ensure_token (ensure_token initialState 0
        (.success ⟨"tok", some 3600⟩)).state 100
        (.success ⟨"tok2", none⟩)).requested = false ∧
     (ensure_token (ensure_token (ensure_token initialState 0
        (.success ⟨"tok", some 3600⟩)).state 100
        (.success ⟨"tok2", none⟩)).state 4000
        (.success ⟨"tok3", none⟩)).requested = true) :=
  ⟨⟨rfl, by decide, by decide, by decide⟩,
   (claim_C1_token_protocol ⟨"tok", some 3600⟩ ⟨"tok2", none⟩ ⟨"tok3", none⟩
      0 100 4000 rfl (by decide) (by decide) (by decide)).2.2.2⟩

/-- Counterexample to claim C2 as stated: the empty string is a string
other than the two valid region keys, yet constructing a client with it
succeeds — the falsy argument falls back to the default region instead of
failing with a configuration error. -/
theorem claim_C2_counterexample :
    clientInit (some "") none =
      .ok ⟨"eu-west-1", "https://api2-eu-west-1.insided.com"⟩ ∧
    ("" : String) ≠ "eu-west-1" ∧ ("" : String) ≠ "us-west-2" :=
  ⟨rfl, by decide, by decide⟩

/-- Claim C2 (amended): each valid region key binds its documented base
URL; any other non-empty region string makes construction fail with an
error naming the offending value and enumerating the valid keys (an empty
argument is treated as absent and falls back to the environment, then to
the default); with no region supplied at all the default is eu-west-1. -/
theorem claim_C2_region_resolution (r : String) (env : Option String)
    (hr0 : r ≠ "") (hr1 : r ≠ "eu-west-1") (hr2 : r ≠ "us-west-2") :
    (∀ env2, clientInit (some "eu-west-1") env2 =
        .ok ⟨"eu-west-1", "https://api2-eu-west-1.insided.com"⟩) ∧
    (∀ env2, clientInit (some "us-west-2") env2 =
        .ok ⟨"us-west-2", "https://api2-us-west-2.insided.com"⟩) ∧
    clientInit (some r) env = .error (unknownRegionMsg r) ∧
    unknownRegionMsg r =
      "Unknown region " ++ squote ++ r ++ squote ++
        ". Supported: eu-west-1, us-west-2" ∧
    clientInit none none = .ok ⟨"eu-west-1", "https://api2-eu-west-1.insided.com"⟩ := by
  have hb1 : (("eu-west-1" : String) == r) = false :=
    beq_eq_false_iff_ne.mpr (Ne.symm hr1)
  have hb2 : (("us-west-2" : String) == r) = false :=
    beq_eq_false_iff_ne.mpr (Ne.symm hr2)
  refine ⟨fun env2 => rfl, fun env2 => rfl, ?_, ?_, rfl⟩
  · have hres : resolveRegion (some r) env = r := by
      simp [resolveRegion, optStrTruthy, hr0]
    have hget : dictGet REGION_BASE_URLS r = none := by
      simp [dictGet, REGION_BASE_URLS, List.find?, hb1, hb2]
    simp [clientInit, hres, hget]
  · unfold unknownRegionMsg
    rw [String.append_assoc ("Unknown region " ++ squote ++ r ++ squote)]
    rfl

/-- Witness for claim C2 at the invalid region ap-southeast-1 (the region
the repository test-suite uses for this case). -/
theorem claim_C2_region_resolution_witness :
    (("ap-southeast-1" : String) ≠ "" ∧
     ("ap-southeast-1" : String) ≠ "eu-west-1" ∧
     ("ap-southeast-1" : String) ≠ "us-west-2") ∧
    clientInit (some "ap-southeast-1") none =
      .error (unknownRegionMsg "ap-southeast-1") :=
  ⟨⟨by decide, by decide, by decide⟩,
   (claim_C2_region_resolution "ap-southeast-1" none (by decide) (by decide)
      (by decide)).2.2.1⟩

/-- Claim C3: content-type validation — inside the closed set each content
type maps to exactly the documented path segment (used verbatim in the
operation paths), and any string outside the set makes each of the four
content-typed operations (get_topic_detail, get_topic_replies,
get_poll_results, get_reply) fail with the configuration error naming the
value and the valid set, before any call spec exists, so no request is
ever issued. -/
theorem claim_C3_content_type_validation (ct : String)
    (hct : ct ∉ (["article", "conversation", "question", "idea", "productUpdate"] : List String))
    (topic_id reply_id : Int) (params : Option Params)
    (st : ClientState) (now : Int) (tf : HttpResult TokenResponseBody)
    (res : HttpResult Json) :
    (dictGet CONTENT_TYPE_PATHS "article" = some "articles" ∧
     dictGet CONTENT_TYPE_PATHS "conversation" = some "conversations" ∧
     dictGet CONTENT_TYPE_PATHS "question" = some "questions" ∧
     dictGet CONTENT_TYPE_PATHS "idea" = some "ideas" ∧
     dictGet CONTENT_TYPE_PATHS "productUpdate" = some "productUpdates") ∧
    (∀ (ct2 seg : String) (id2 rid2 : Int) (ps2 : Option Params),
        dictGet CONTENT_TYPE_PATHS ct2 = some seg →
        get_topic_detail ct2 id2 =
          .ok ⟨"GET", "/v2/" ++ seg ++ "/" ++ toString id2, none⟩ ∧
        get_topic_replies ct2 id2 ps2 =
          .ok ⟨"GET", "/v2/" ++ seg ++ "/" ++ toString id2 ++ "/replies", ps2⟩ ∧
        get_poll_results ct2 id2 =
          .ok ⟨"GET", "/v2/" ++ seg ++ "/" ++ toString id2 ++ "/poll", none⟩ ∧
        get_reply ct2 id2 rid2 =
          .ok ⟨"GET", "/v2/" ++ seg ++ "/" ++ toString id2 ++ "/replies/" ++
            toString rid2, none⟩) ∧
    (get_topic_detail ct topic_id = .error (unknownContentTypeMsg ct) ∧
     get_topic_replies ct topic_id params = .error (unknownContentTypeMsg ct) ∧
     get_poll_results ct topic_id = .error (unknownContentTypeMsg ct) ∧
     get_reply ct topic_id reply_id = .error (unknownContentTypeMsg ct)) ∧
    ((runOp (get_topic_detail ct topic_id) st now tf res).issued = none ∧
     (runOp (get_topic_replies ct topic_id params) st now tf res).issued = none ∧
     (runOp (get_poll_results ct topic_id) st now tf res).issued = none ∧
     (runOp (get_reply ct topic_id reply_id) st now tf res).issued = none) ∧
    unknownContentTypeMsg ct =
      "Unknown content type " ++ squote ++ ct ++ squote ++
        ". Supported: article, conversation, question, idea, productUpdate" := by
  simp only [List.mem_cons, List.not_mem_nil, or_false, not_or] at hct
  obtain ⟨h1, h2, h3, h4, h5⟩ := hct
  have hb1 : (("article" : String) == ct) = false :=
    beq_eq_false_iff_ne.mpr (Ne.symm h1)
  have hb2 : (("conversation" : String) == ct) = false :=
    beq_eq_false_iff_ne.mpr (Ne.symm h2)
  have hb3 : (("question" : String) == ct) = false :=
    beq_eq_false_iff_ne.mpr (Ne.symm h3)
  have hb4 : (("idea" : String) == ct) = false :=
    beq_eq_false_iff_ne.mpr (Ne.symm h4)
  have hb5 : (("productUpdate" : String) == ct) = false :=
    beq_eq_false_iff_ne.mpr (Ne.symm h5)
  have hget : dictGet CONTENT_TYPE_PATHS ct = none := by
    simp [dictGet, CONTENT_TYPE_PATHS, List.find?, hb1, hb2, hb3, hb4, hb5]
  refine ⟨⟨rfl, rfl, rfl, rfl, rfl⟩, ?_, ?_, ?_, ?_⟩
  · intro ct2 seg id2 rid2 ps2 hs
    exact ⟨by simp [get_topic_detail, hs], by simp [get_topic_replies, hs],
      by simp [get_poll_results, hs], by simp [get_reply, hs]⟩
  · exact ⟨by simp [get_topic_detail, hget], by simp [get_topic_replies, hget],
      by simp [get_poll_results, hget], by simp [get_reply, hget]⟩
  · refine ⟨?_, ?_, ?_, ?_⟩ <;>
      · simp only [runOp]
        split
        · rfl
        · rename_i heq
          first
          | (rw [get_topic_detail, hget] at heq; cases heq)
          | (rw [get_topic_replies, hget] at heq; cases heq)
          | (rw [get_poll_results, hget] at heq; cases heq)
          | (rw [get_reply, hget] at heq; cases heq)
  · unfold unknownContentTypeMsg
    rw [String.append_assoc ("Unknown content type " ++ squote ++ ct ++ squote)]
    rfl

/-- Witness for claim C3 at the content type "invalid" (the value the
repository test-suite uses for this case). -/
theorem claim_C3_content_type_validation_witness :
    (("invalid" : String) ∉
      (["article", "conversation", "question", "idea", "productUpdate"] : List String)) ∧
    get_topic_detail "invalid" 1 = .error (unknownContentTypeMsg "invalid") ∧
    (runOp (get_topic_detail "invalid" 1) initialState 0
        (.success ⟨"tok", none⟩) (.success .null)).issued = none :=
  ⟨by decide,
   (claim_C3_content_type_validation "invalid" (by decide) 1 1 none initialState 0
      (.success ⟨"tok", none⟩) (.success .null)).2.2.1.1,
   (claim_C3_content_type_validation "invalid" (by decide) 1 1 none initialState 0
      (.success ⟨"tok", none⟩) (.success .null)).2.2.2.1.1⟩

/-- Claim C4: every client operation funnels through the `_request`
primitive, which first ensures a valid token, then issues the HTTP request
with the given method, path and optional query parameters under an
Authorization Bearer header; a non-2xx response fails with an upstream
request error carrying the status code and body, and a 2xx response
returns the decoded JSON body verbatim. -/
theorem claim_C4_generic_request :
    (∀ (params : Params) (st : ClientState) (now : Int)
        (tf : HttpResult TokenResponseBody) (res : HttpResult Json),
        runOp (search params) st now tf res =
          _request st now tf "GET" "/v2/topics/search" (some params) res ∧
        runOp (list_topics params) st now tf res =
          _request st now tf "GET" "/v2/topics" (some params) res ∧
        runOp (get_topic_by_id 7) st now tf res =
          _request st now tf "GET" "/v2/topics" (some [("id", .i 7)]) res ∧
        runOp (list_categories none) st now tf res =
          _request st now tf "GET" "/v2/categories" none res) ∧
    (∀ (st : ClientState) (now : Int) (tb : TokenResponseBody)
        (m p : String) (ps : Option Params) (res : HttpResult Json),
        ∃ tok, (ensure_token st now (.success tb)).state.access_token = some tok ∧
          (_request st now (.success tb) m p ps res).issued =
            some ⟨m, p, ps,
              [("Authorization", "Bearer " ++ tok), ("Accept", "*/*")]⟩) ∧
    (∀ (st : ClientState) (now : Int) (tb : TokenResponseBody)
        (m p : String) (ps : Option Params) (status : Nat) (body : String),
        (_request st now (.success tb) m p ps (.httpError status body)).result =
          .error (.http status body)) ∧
    (∀ (st : ClientState) (now : Int) (tb : TokenResponseBody)
        (m p : String) (ps : Option Params) (body : Json),
        (_request st now (.success tb) m p ps (.success body)).result = .ok body) ∧
    (∀ (now : Int) (status : Nat) (body : String) (m p : String)
        (ps : Option Params) (res : HttpResult Json),
        (_request initialState now (.httpError status body) m p ps res).issued = none ∧
        (_request initialState now (.httpError status body) m p ps res).result =
          .error (.http status body)) := by
  refine ⟨fun params st now tf res => ⟨rfl, rfl, rfl, rfl⟩, ?_, ?_, ?_, ?_⟩
  · intro st now tb m p ps res
    obtain ⟨tok, htok⟩ := ensure_token_success_isSome st now tb
    refine ⟨tok, htok, ?_⟩
    rw [request_of_failure_none st now (.success tb) m p ps res
      (ensure_token_success_failure st now tb)]
    simp [htok]
  · intro st now tb m p ps status body
    rw [request_of_failure_none st now (.success tb) m p ps (.httpError status body)
      (ensure_token_success_failure st now tb)]
  · intro st now tb m p ps body
    rw [request_of_failure_none st now (.success tb) m p ps (.success body)
      (ensure_token_success_failure st now tb)]
  · intro now status body m p ps res
    have hfail : (ensure_token initialState now (.httpError status body)).failure
        = some (status, body) := by
      unfold ensure_token
      rw [if_neg]
      rintro ⟨h1, _⟩
      simp [token_exists, initialState, optStrTruthy] at h1
    rw [request_of_failure_some initialState now (.httpError status body) m p ps res
      status body hfail]
    exact ⟨rfl, rfl⟩

/-- Claim C5: error atomicity of the token cache — a token fetch ending in
a non-2xx response leaves the previously cached token and expiry exactly as
they were, and the outcome of the resource call never changes the token
cache (the state after `_request` is exactly the state `_ensure_token`
left, whatever the resource response was). -/
theorem claim_C5_error_atomicity :
    (∀ (st : ClientState) (now : Int) (status : Nat) (body : String),
        (ensure_token st now (.httpError status body)).state = st) ∧
    (∀ (st : ClientState) (now : Int) (tf : HttpResult TokenResponseBody)
        (m p : String) (ps : Option Params) (res : HttpResult Json),
        (_request st now tf m p ps res).state = (ensure_token st now tf).state) ∧
    (∀ (st : ClientState) (now : Int) (tf : HttpResult TokenResponseBody)
        (m p : String) (ps : Option Params) (status : Nat) (body : String)
        (res : HttpResult Json),
        (_request st now tf m p ps (.httpError status body)).state =
          (_request st now tf m p ps res).state) := by
  have hens : ∀ (st : ClientState) (now : Int) (status : Nat) (body : String),
      (ensure_token st now (.httpError status body)).state = st := by
    intro st now status body
    unfold ensure_token
    by_cases h : token_exists st ∧ now < st.token_expires_at
    · rw [if_pos h]
    · rw [if_neg h]
  have hreq : ∀ (st : ClientState) (now : Int) (tf : HttpResult TokenResponseBody)
      (m p : String) (ps : Option Params) (res : HttpResult Json),
      (_request st now tf m p ps res).state = (ensure_token st now tf).state := by
    intro st now tf m p ps res
    cases hfail : (ensure_token st now tf).failure with
    | none => rw [request_of_failure_none st now tf m p ps res hfail]
    | some e =>
        rcases e with ⟨status, body⟩
        rw [request_of_failure_some st now tf m p ps res status body hfail]
  exact ⟨hens, hreq, fun st now tf m p ps status body res => by
    rw [hreq, hreq]⟩

/-- Claim C6: date-range collapse — the created-after/created-before pair
becomes one structured range object that omits absent bounds, transmitted
as a single JSON-encoded createdAt parameter (likewise the active pair as
lastActivity, and likewise in the by-category listing); with only a lower
bound the serialized object has a from key and no to key, and with neither
bound the parameter is omitted entirely. -/
theorem claim_C6_date_range_collapse (a b : String) (ha : a ≠ "") (hb : b ≠ "") :
    (date_range (some a) none = some [("from", a)] ∧
     date_range none (some b) = some [("to", b)] ∧
     date_range (some a) (some b) = some [("from", a), ("to", b)] ∧
     date_range none none = none) ∧
    (findParam (list_topics_unified_params none none none none none (some a)
        none none none none none) "createdAt" =
      some (.s (json_dumps_obj [("from", a)])) ∧
     findParam (list_topics_unified_params none none none none none none none
        none none none none) "createdAt" = none) ∧
    (findParam (list_topics_unified_params none none none none none none none
        (some a) none none none) "lastActivity" =
      some (.s (json_dumps_obj [("from", a)])) ∧
     findParam (list_topics_unified_params none none none none none none none
        none none none none) "lastActivity" = none) ∧
    (findParam (list_topics_by_category_params none none none (some a) none
        none none none none) "createdAt" =
      some (.s (json_dumps_obj [("from", a)])) ∧
     findParam (list_topics_by_category_params none none none none none none
        none none none) "createdAt" = none) ∧
    json_dumps_obj [("from", "2024-01-01")] =
      "\x7b\"from\": \"2024-01-01\"\x7d" := by
  have hba : (a == "") = false := beq_eq_false_iff_ne.mpr ha
  refine ⟨⟨?_, ?_, ?_, rfl⟩, ⟨?_, rfl⟩, ⟨?_, rfl⟩, ⟨?_, rfl⟩, rfl⟩
  · simp [date_range, optStrTruthy, hba, _clean]
  · have hbb : (b == "") = false := beq_eq_false_iff_ne.mpr hb
    simp [date_range, optStrTruthy, hbb, _clean]
  · simp [date_range, optStrTruthy, hba, _clean]
  · simp [list_topics_unified_params, date_range, optStrTruthy, hba, _clean,
      range_param, findParam, List.find?]
  · simp [list_topics_unified_params, date_range, optStrTruthy, hba, _clean,
      range_param, findParam, List.find?]
  · simp [list_topics_by_category_params, date_range, optStrTruthy, hba, _clean,
      range_param, findParam, List.find?]

/-- Witness for claim C6 at the concrete bounds 2024-01-01 and 2024-02-01. -/
theorem claim_C6_date_range_collapse_witness :
    (("2024-01-01" : String) ≠ "" ∧ ("2024-02-01" : String) ≠ "") ∧
    findParam (list_topics_unified_params none none none none none
        (some "2024-01-01") none none none none none) "createdAt" =
      some (.s (json_dumps_obj [("from", "2024-01-01")])) ∧
    json_dumps_obj [("from", "2024-01-01")] =
      "\x7b\"from\": \"2024-01-01\"\x7d" :=
  ⟨⟨by decide, by decide⟩,
   (claim_C6_date_range_collapse "2024-01-01" "2024-02-01" (by decide)
      (by decide)).2.1.1,
   (claim_C6_date_range_collapse "2024-01-01" "2024-02-01" (by decide)
      (by decide)).2.2.2.2⟩

/-- Claim C7: absent-parameter stripping — `_clean` keeps exactly the
present key-value pairs, unchanged, and drops the absent (None) ones, so a
search call with only the query set transmits exactly the mapping with the
single key q. -/
theorem claim_C7_param_stripping :
    (∀ (ps : List (String × Option PValue)) (k : String) (v : PValue),
        (k, v) ∈ _clean ps ↔ (k, some v) ∈ ps) ∧
    (∀ q : String,
        search_community_params q none none none none none none = [("q", .s q)]) := by
  constructor
  · intro ps k v
    unfold _clean
    rw [List.mem_filterMap]
    constructor
    · rintro ⟨⟨k2, ov⟩, hmem, hov⟩
      cases ov with
      | none => simp at hov
      | some x =>
          simp only [Option.map_some'] at hov
          injection hov with h1
          injection h1 with h3 h4
          subst h3
          subst h4
          exact hmem
    · intro hmem
      exact ⟨(k, some v), hmem, rfl⟩
  · intro q
    rfl

/-- Claim C8: the replies-404 policy is split across layers — the
client-level get_topic_replies raises the upstream 404 (the generic
request primitive also propagates it unconverted), and the server-level
get_topic wrapper converts an HTTP failure of the replies call into the
empty-replies shape attached to the topic under the replies key instead of
propagating the failure. -/
theorem claim_C8_replies_404_policy (ct seg : String)
    (hct : dictGet CONTENT_TYPE_PATHS ct = some seg)
    (topic_id : Int) (params : Option Params) (st : ClientState) (now : Int)
    (tb : TokenResponseBody) (body : String) (fields : List (String × Json)) :
    (runOp (get_topic_replies ct topic_id params) st now (.success tb)
        (.httpError 404 body)).result = .error (.http 404 body) ∧
    (∀ (m p : String) (ps : Option Params),
        (_request st now (.success tb) m p ps (.httpError 404 body)).result =
          .error (.http 404 body)) ∧
    get_topic_attach (.obj fields) (.error (.http 404 body)) =
      .ok (objSet (.obj fields) "replies" emptyRepliesShape) ∧
    jsonGet (objSet (.obj fields) "replies" emptyRepliesShape) "replies" =
      some (.obj [("result", .arr []), ("_metadata", .obj [("totalCount", .num 0)])]) := by
  refine ⟨?_, ?_, rfl, jsonGet_objSet fields "replies" emptyRepliesShape⟩
  · have hspec : get_topic_replies ct topic_id params =
        .ok ⟨"GET", "/v2/" ++ seg ++ "/" ++ toString topic_id ++ "/replies", params⟩ := by
      simp [get_topic_replies, hct]
    rw [hspec]
    show (_request st now (.success tb) "GET"
        ("/v2/" ++ seg ++ "/" ++ toString topic_id ++ "/replies") params
        (.httpError 404 body)).result = .error (.http 404 body)
    rw [request_of_failure_none st now (.success tb) _ _ params
      (.httpError 404 body) (ensure_token_success_failure st now tb)]
  · intro m p ps
    rw [request_of_failure_none st now (.success tb) m p ps
      (.httpError 404 body) (ensure_token_success_failure st now tb)]

/-- Witness for claim C8 at content type question, topic 10, on an object
topic with one id field. -/
theorem claim_C8_replies_404_policy_witness :
    dictGet CONTENT_TYPE_PATHS "question" = some "questions" ∧
    get_topic_attach (.obj [("id", .num 10)]) (.error (.http 404 "not found")) =
      .ok (objSet (.obj [("id", .num 10)]) "replies" emptyRepliesShape) :=
  ⟨rfl,
   (claim_C8_replies_404_policy "question" "questions" rfl 10 none initialState 0
      ⟨"tok", none⟩ "not found" [("id", .num 10)]).2.2.1⟩

/-- Claim C9: the operation menu includes a search-tags operation — the
server tool cleans its q/page arguments and funnels them into the
client-level search_tags operation, which issues a GET to the fixed
tag-search path with those parameters and returns the decoded response
body. -/
theorem claim_C9_search_tags :
    (∀ (q : Option String) (page : Option Int),
        search_tags_tool q page = client.search_tags (search_tags_params q page)) ∧
    (∀ (q : String) (page : Int),
        search_tags_params (some q) (some page) = [("q", .s q), ("page", .i page)]) ∧
    (∀ (ps : Params) (st : ClientState) (now : Int) (tb : TokenResponseBody)
        (res : HttpResult Json),
        ((runOp (client.search_tags ps) st now (.success tb) res).issued.map
            IssuedRequest.method) = some "GET" ∧
        ((runOp (client.search_tags ps) st now (.success tb) res).issued.map
            IssuedRequest.path) = some TAG_SEARCH_PATH ∧
        ((runOp (client.search_tags ps) st now (.success tb) res).issued.map
            IssuedRequest.params) = some (some ps)) ∧
    (∀ (ps : Params) (st : ClientState) (now : Int) (tb : TokenResponseBody)
        (body : Json),
        (runOp (client.search_tags ps) st now (.success tb)
          (.success body)).result = .ok body) := by
  refine ⟨fun q page => rfl, fun q page => rfl, ?_, ?_⟩
  · intro ps st now tb res
    show ((_request st now (.success tb) "GET" TAG_SEARCH_PATH (some ps) res).issued.map
        IssuedRequest.method) = some "GET" ∧
      ((_request st now (.success tb) "GET" TAG_SEARCH_PATH (some ps) res).issued.map
        IssuedRequest.path) = some TAG_SEARCH_PATH ∧
      ((_request st now (.success tb) "GET" TAG_SEARCH_PATH (some ps) res).issued.map
        IssuedRequest.params) = some (some ps)
    rw [request_of_failure_none st now (.success tb) "GET" TAG_SEARCH_PATH (some ps)
      res (ensure_token_success_failure st now tb)]
    exact ⟨rfl, rfl, rfl⟩
  · intro ps st now tb body
    show (_request st now (.success tb) "GET" TAG_SEARCH_PATH (some ps)
        (.success body)).result = .ok body
    rw [request_of_failure_none st now (.success tb) "GET" TAG_SEARCH_PATH (some ps)
      (.success body) (ensure_token_success_failure st now tb)]

/-- Counterexample to claim C10 as stated: with the non-None content type
some "" and a tags filter, the server list_topics tool takes the unified
branch and forwards the tags parameter — not only page and page_size (which
here would give the empty mapping). -/
theorem claim_C10_counterexample :
    list_topics_tool (some "") none (some "x") none none none none none none
        none none none = ("/v2/topics", [("tags", PValue.s "x")]) ∧
    ([("tags", PValue.s "x")] : Params) ≠ page_params none none :=
  ⟨rfl, by decide⟩

/-- Claim C10 (amended): for every call of the server list_topics tool
where content_type is a non-empty (truthy) string, only the page and
page_size parameters are forwarded to the client, all other filters being
silently dropped; a non-empty content_type outside the closed set does not
raise a configuration error but routes to the unified /v2/topics endpoint,
issuing a network request whose decoded body is returned.  (An empty
content_type string is treated as absent and takes the fully-filtered
unified branch.) -/
theorem claim_C10_typed_routing (ct : String) (hct0 : ct ≠ "")
    (hout : ct ∉ (["article", "conversation", "question", "idea", "productUpdate"] : List String))
    (cids tags mtags cts sort ca cb aa ab : Option String)
    (page psize : Option Int)
    (st : ClientState) (now : Int) (tb : TokenResponseBody) (body : Json) :
    (∀ ct2 : String, ct2 ≠ "" →
        (list_topics_tool (some ct2) cids tags mtags cts sort ca cb aa ab
          page psize).2 = page_params page psize) ∧
    ((list_topics_tool (some "question") cids tags mtags cts sort ca cb aa ab
        page psize).1 = "/v2/questions" ∧
     (list_topics_tool (some "conversation") cids tags mtags cts sort ca cb aa ab
        page psize).1 = "/v2/conversations" ∧
     (list_topics_tool (some "article") cids tags mtags cts sort ca cb aa ab
        page psize).1 = "/v2/articles" ∧
     (list_topics_tool (some "idea") cids tags mtags cts sort ca cb aa ab
        page psize).1 = "/v2/ideas" ∧
     (list_topics_tool (some "productUpdate") cids tags mtags cts sort ca cb aa ab
        page psize).1 = "/v2/productUpdates") ∧
    (list_topics_tool (some ct) cids tags mtags cts sort ca cb aa ab
      page psize).1 = "/v2/topics" ∧
    ((list_topics_tool_run (some ct) cids tags mtags cts sort ca cb aa ab
        page psize st now (.success tb) (.success body)).issued.map
      IssuedRequest.path) = some "/v2/topics" ∧
    (list_topics_tool_run (some ct) cids tags mtags cts sort ca cb aa ab
      page psize st now (.success tb) (.success body)).result = .ok body := by
  simp only [List.mem_cons, List.not_mem_nil, or_false, not_or] at hout
  obtain ⟨h1, h2, h3, h4, h5⟩ := hout
  have hb0 : (ct == "") = false := beq_eq_false_iff_ne.mpr hct0
  have hroute : list_topics_tool (some ct) cids tags mtags cts sort ca cb aa ab
      page psize = ("/v2/topics", page_params page psize) := by
    simp [list_topics_tool, optStrTruthy, hb0, h1, h2, h3, h4, h5]
  refine ⟨?_, ⟨rfl, rfl, rfl, rfl, rfl⟩, by rw [hroute], ?_, ?_⟩
  · intro ct2 hct2
    have hb2 : (ct2 == "") = false := beq_eq_false_iff_ne.mpr hct2
    simp only [list_topics_tool, optStrTruthy, hb2, Bool.not_false, if_true]
    split_ifs <;> rfl
  · show ((_request st now (.success tb) "GET"
        (list_topics_tool (some ct) cids tags mtags cts sort ca cb aa ab page psize).1
        (some (list_topics_tool (some ct) cids tags mtags cts sort ca cb aa ab
          page psize).2) (.success body)).issued.map IssuedRequest.path) =
      some "/v2/topics"
    rw [hroute, request_of_failure_none st now (.success tb) "GET" "/v2/topics"
      (some (page_params page psize)) (.success body)
      (ensure_token_success_failure st now tb)]
    rfl
  · show (_request st now (.success tb) "GET"
        (list_topics_tool (some ct) cids tags mtags cts sort ca cb aa ab page psize).1
        (some (list_topics_tool (some ct) cids tags mtags cts sort ca cb aa ab
          page psize).2) (.success body)).result = .ok body
    rw [hroute, request_of_failure_none st now (.success tb) "GET" "/v2/topics"
      (some (page_params page psize)) (.success body)
      (ensure_token_success_failure st now tb)]

/-- Witness for the amended claim C10 at the unknown non-empty content
type bogus with all filters set. -/
theorem claim_C10_typed_routing_witness :
    (("bogus" : String) ≠ "" ∧
     ("bogus" : String) ∉
       (["article", "conversation", "question", "idea", "productUpdate"] : List String)) ∧
    (list_topics_tool (some "bogus") (some "1") (some "x") none none none none
      none none none (some 2) (some 5)).1 = "/v2/topics" ∧
    (list_topics_tool (some "bogus") (some "1") (some "x") none none none none
      none none none (some 2) (some 5)).2 = page_params (some 2) (some 5) :=
  ⟨⟨by decide, by decide⟩,
   (claim_C10_typed_routing "bogus" (by decide) (by decide) (some "1") (some "x")
      none none none none none none none (some 2) (some 5) initialState 0
      ⟨"tok", none⟩ .null).2.2.1,
   (claim_C10_typed_routing "bogus" (by decide) (by decide) (some "1") (some "x")
      none none none none none none none (some 2) (some 5) initialState 0
      ⟨"tok", none⟩ .null).1 "bogus" (by decide)⟩

end GainsightMCP
